import Mathlib

/-!
# Shallow embedding of `src/server.js`

The program is an Express HTTP server over a SQLite database with two tables,
`levels` and `videos`.  We embed:

* JavaScript request-body values as `JSVal` (a body field that is absent
  destructures to `undefined`; the node-sqlite3 driver binds both `undefined`
  and `null` as SQL `NULL`, strings as `TEXT` and numbers as `INTEGER`);
* SQLite storage values as `SQLVal` (`NULL`, `INTEGER`, `TEXT`; the claims
  exercise no `REAL`/`BLOB` values, and SQLite's lossless text-to-number
  affinity conversion is not modelled since no claim feeds a numeric string
  where an integer is expected);
* the two tables as lists of rows inside a `Store`, with the
  `INTEGER PRIMARY KEY AUTOINCREMENT` columns modelled by `nextLevelId` /
  `nextVideoId` counters (SQLite's `this.lastID` is the id of the row just
  inserted);
* each route handler of `server.js` as a function from the store (and the
  parsed path/body inputs) to a response, paired with the successor store for
  the mutating routes.  Route `:id` parameters arrive as decimal strings;
  SQLite's numeric affinity makes them compare as integers against the
  integer key columns, so they are modelled as `Nat`.
  The `500` branch of a handler fires only when the SQLite engine itself
  reports an error; for the statements of this program that means a violated
  `NOT NULL` or `UNIQUE` constraint on an `INSERT`/`UPDATE`, which the
  embedding models explicitly.  Read-only `SELECT` statements over the two
  tables cannot fail, so the list-returning handlers return bare lists.
* `created_at` columns (`DEFAULT CURRENT_TIMESTAMP`, never read by any
  route) are omitted.
-/

namespace CultureServer

/-- A JavaScript value as it occurs in a parsed JSON request body after
destructuring: a missing field is `undef`. -/
inductive JSVal where
  | undef
  | null
  | int (i : Int)
  | str (s : String)
deriving DecidableEq

/-- JavaScript truthiness, as tested by `if (!videoData)` in the upload
handler: `undefined`, `null`, `0` and `""` are falsy. -/
def JSVal.truthy : JSVal → Bool
  | .undef => false
  | .null => false
  | .int i => i != 0
  | .str s => s != ""

/-- A SQLite storage value (storage classes exercised by this program). -/
inductive SQLVal where
  | null
  | int (i : Int)
  | text (t : String)
deriving DecidableEq

/-- Parameter binding of node-sqlite3: `undefined` and `null` both bind as
SQL `NULL`, numbers as `INTEGER`, strings as `TEXT`. -/
def JSVal.toSQL : JSVal → SQLVal
  | .undef => .null
  | .null => .null
  | .int i => .int i
  | .str s => .text s

/-- SQLite `ORDER BY` comparison on the storage classes in use:
`NULL` sorts before every other value, integers before text, integers
numerically, text by the default `BINARY` collation (string order). -/
def SQLVal.le : SQLVal → SQLVal → Bool
  | .null, _ => true
  | .int _, .null => false
  | .int i, .int j => decide (i ≤ j)
  | .int _, .text _ => true
  | .text _, .null => false
  | .text _, .int _ => false
  | .text s, .text t => decide (s ≤ t)

/-- A row of the `levels` table (`id INTEGER PRIMARY KEY AUTOINCREMENT,
number INTEGER UNIQUE, title TEXT NOT NULL, description TEXT, icon TEXT,
status TEXT DEFAULT 'locked', points INTEGER DEFAULT 100`). -/
structure Level where
  id : Nat
  number : SQLVal
  title : SQLVal
  description : SQLVal
  icon : SQLVal
  status : SQLVal
  points : SQLVal
deriving DecidableEq

/-- A row of the `videos` table (`id INTEGER PRIMARY KEY AUTOINCREMENT,
level_id INTEGER, title TEXT NOT NULL, description TEXT, filename TEXT,
file_size INTEGER, mime_type TEXT, video_data TEXT`). -/
structure Video where
  id : Nat
  level_id : SQLVal
  title : SQLVal
  description : SQLVal
  filename : SQLVal
  file_size : SQLVal
  mime_type : SQLVal
  video_data : SQLVal
deriving DecidableEq

/-- The database state: the two tables plus their autoincrement counters
(`AUTOINCREMENT` ids start at 1 on a fresh database). -/
structure Store where
  levels : List Level
  videos : List Video
  nextLevelId : Nat
  nextVideoId : Nat
deriving DecidableEq

/-- The destructured body of `POST /api/levels` and `PUT /api/levels/:id`:
`const { number, title, description, icon, status, points } = req.body`. -/
structure LevelBody where
  number : JSVal
  title : JSVal
  description : JSVal
  icon : JSVal
  status : JSVal
  points : JSVal
deriving DecidableEq

/-- The destructured body of `POST /api/videos`: `const { level_id, title,
description, videoData, filename, fileSize, mimeType } = req.body`. -/
structure VideoBody where
  level_id : JSVal
  title : JSVal
  description : JSVal
  videoData : JSVal
  filename : JSVal
  fileSize : JSVal
  mimeType : JSVal
deriving DecidableEq

/-- An HTTP JSON response: `ok` carries a 200 body, `clientErr` a 400/404
error body, `serverErr` a 500 error body. -/
inductive ApiResp (α : Type) where
  | ok (body : α)
  | clientErr (status : Nat) (error : String)
  | serverErr (error : String)
deriving DecidableEq

/-- The HTTP status code of a response. -/
def ApiResp.status : ApiResp α → Nat
  | .ok _ => 200
  | .clientErr c _ => c
  | .serverErr _ => 500

/-! ## Level endpoints -/

/-- `GET /api/levels`: `SELECT * FROM levels ORDER BY number`. -/
def getLevels (s : Store) : List Level :=
  s.levels.mergeSort fun a b => SQLVal.le a.number b.number

/-- `GET /api/levels/:id`: `SELECT * FROM levels WHERE id = ?` via `db.get`,
answering 200 with the row, or with `undefined` (serialised as an empty/null
body) when no row matches. -/
def getLevelById (s : Store) (id : Nat) : ApiResp (Option Level) :=
  .ok (s.levels.find? fun l => l.id == id)

/-- The `INSERT INTO levels (number, title, description, icon, status,
points) VALUES (?, ?, ?, ?, ?, ?)` statement shared by create and seeding.
All six columns are named in the column list, so the schema defaults
(`status TEXT DEFAULT 'locked'`, `points INTEGER DEFAULT 100`) never apply:
an absent body field binds as `NULL` and `NULL` is stored.  The statement
fails on the `title` `NOT NULL` constraint and on the `number` `UNIQUE`
constraint (SQLite `UNIQUE` admits any number of `NULL`s). -/
def insertLevelRow (s : Store) (b : LevelBody) : Except String (Store × Nat) :=
  let title := b.title.toSQL
  if title = .null then
    .error "SQLITE_CONSTRAINT: NOT NULL constraint failed: levels.title"
  else
    let number := b.number.toSQL
    if number ≠ .null ∧ s.levels.any (fun l => l.number == number) then
      .error "SQLITE_CONSTRAINT: UNIQUE constraint failed: levels.number"
    else
      let row : Level :=
        { id := s.nextLevelId, number := number, title := title,
          description := b.description.toSQL, icon := b.icon.toSQL,
          status := b.status.toSQL, points := b.points.toSQL }
      .ok ({ s with levels := s.levels ++ [row],
                    nextLevelId := s.nextLevelId + 1 }, s.nextLevelId)

/-- `POST /api/levels`: runs the insert; on success answers 200 with
`{ id: this.lastID, message: 'Level created successfully' }`, on a database
error 500 with the error message. -/
def postLevel (s : Store) (b : LevelBody) : ApiResp (Nat × String) × Store :=
  match insertLevelRow s b with
  | .ok (s', id) => (.ok (id, "Level created successfully"), s')
  | .error e => (.serverErr e, s)

/-- `PUT /api/levels/:id`: `UPDATE levels SET number = ?, title = ?,
description = ?, icon = ?, status = ?, points = ? WHERE id = ?`.  When no
row has the given id the update affects zero rows and still answers 200;
when a row matches, the same `NOT NULL`/`UNIQUE` constraints as on insert
apply to the new values. -/
def putLevel (s : Store) (id : Nat) (b : LevelBody) : ApiResp String × Store :=
  match s.levels.find? (fun l => l.id == id) with
  | none => (.ok "Level updated successfully", s)
  | some _ =>
    let title := b.title.toSQL
    if title = .null then
      (.serverErr "SQLITE_CONSTRAINT: NOT NULL constraint failed: levels.title", s)
    else
      let number := b.number.toSQL
      if number ≠ .null ∧ s.levels.any (fun l => l.id ≠ id ∧ l.number == number) then
        (.serverErr "SQLITE_CONSTRAINT: UNIQUE constraint failed: levels.number", s)
      else
        (.ok "Level updated successfully",
         { s with levels := s.levels.map fun l =>
            if l.id = id then
              { l with number := number, title := title,
                       description := b.description.toSQL, icon := b.icon.toSQL,
                       status := b.status.toSQL, points := b.points.toSQL }
            else l })

/-- `DELETE /api/levels/:id`: first `DELETE FROM videos WHERE level_id = ?`,
then `DELETE FROM levels WHERE id = ?`, then 200
`{ message: 'Level and associated videos deleted successfully' }`.
`DELETE` statements on the two tables cannot fail. -/
def deleteLevel (s : Store) (id : Nat) : ApiResp String × Store :=
  let s1 := { s with videos := s.videos.filter fun v => ¬ v.level_id = SQLVal.int id }
  let s2 := { s1 with levels := s1.levels.filter fun l => ¬ l.id = id }
  (.ok "Level and associated videos deleted successfully", s2)

/-! ## Video endpoints -/

/-- One output row of the `GET /api/videos` query: `v.*` plus
`l.number as level_number, l.title as level_title`. -/
structure JoinedVideo where
  video : Video
  level_number : SQLVal
  level_title : SQLVal
deriving DecidableEq

/-- The rows the `LEFT JOIN levels l ON v.level_id = l.id` contributes for
one video: one row per matching level, or a single row with `NULL` join
columns when no level matches. -/
def leftJoinRows (levels : List Level) (v : Video) : List JoinedVideo :=
  match levels.filter (fun l => v.level_id == SQLVal.int l.id) with
  | [] => [{ video := v, level_number := .null, level_title := .null }]
  | ls => ls.map fun l => { video := v, level_number := l.number, level_title := l.title }

/-- The `ORDER BY l.number, v.title` comparison: by level number, ties
broken by video title, ordered as SQLite orders storage values. -/
def joinedLe (a b : JoinedVideo) : Bool :=
  if a.level_number = b.level_number then SQLVal.le a.video.title b.video.title
  else SQLVal.le a.level_number b.level_number

/-- `GET /api/videos`: `SELECT v.*, l.number as level_number, l.title as
level_title FROM videos v LEFT JOIN levels l ON v.level_id = l.id ORDER BY
l.number, v.title`. -/
def getVideos (s : Store) : List JoinedVideo :=
  (s.videos.flatMap (leftJoinRows s.levels)).mergeSort joinedLe

/-- `GET /api/videos/level/:levelId`: `SELECT * FROM videos WHERE
level_id = ?` (no ordering clause). -/
def getVideosByLevel (s : Store) (levelId : Nat) : List Video :=
  s.videos.filter fun v => v.level_id == SQLVal.int levelId

/-- `POST /api/videos`: rejects with 400 `{ error: 'No video data provided' }`
when `!videoData`; otherwise `INSERT INTO videos (level_id, title,
description, filename, file_size, mime_type, video_data) VALUES
(?, ?, ?, ?, ?, ?, ?)` and 200 `{ id: this.lastID, message: 'Video uploaded
successfully' }`.  The only constraint the statement can violate is
`NOT NULL` on `videos.title` (foreign keys are not enabled by the driver,
so `level_id` is unchecked). -/
def postVideo (s : Store) (b : VideoBody) : ApiResp (Nat × String) × Store :=
  if ¬ b.videoData.truthy then
    (.clientErr 400 "No video data provided", s)
  else
    let title := b.title.toSQL
    if title = .null then
      (.serverErr "SQLITE_CONSTRAINT: NOT NULL constraint failed: videos.title", s)
    else
      let row : Video :=
        { id := s.nextVideoId, level_id := b.level_id.toSQL, title := title,
          description := b.description.toSQL, filename := b.filename.toSQL,
          file_size := b.fileSize.toSQL, mime_type := b.mimeType.toSQL,
          video_data := b.videoData.toSQL }
      (.ok (s.nextVideoId, "Video uploaded successfully"),
       { s with videos := s.videos ++ [row], nextVideoId := s.nextVideoId + 1 })

/-- `GET /api/videos/:id`: `SELECT * FROM videos WHERE id = ?`; 404
`{ error: 'Video not found' }` when no row matches, else 200 with the row. -/
def getVideoById (s : Store) (id : Nat) : ApiResp Video :=
  match s.videos.find? (fun v => v.id == id) with
  | some v => .ok v
  | none => .clientErr 404 "Video not found"

/-- `DELETE /api/videos/:id`: `DELETE FROM videos WHERE id = ?`, then 200
`{ message: 'Video deleted successfully' }` whether or not a row matched. -/
def deleteVideo (s : Store) (id : Nat) : ApiResp String × Store :=
  (.ok "Video deleted successfully",
   { s with videos := s.videos.filter fun v => ¬ v.id = id })

/-! ## Sample-data seeding -/

/-- One element of the `sampleLevels` array in `insertSampleData`. -/
structure SampleLevel where
  number : Int
  title : String
  description : String
  icon : String
  status : String
  points : Int
deriving DecidableEq

/-- The `sampleLevels` array of `server.js`. -/
def sampleLevels : List SampleLevel :=
  [{ number := 1, title := "Festivals & Celebrations",
     description := "Explore the vibrant festivals of India", icon := "🎉",
     status := "available", points := 100 },
   { number := 2, title := "Folk Arts & Music",
     description := "Discover India's rich folk arts and music", icon := "🎨",
     status := "locked", points := 150 },
   { number := 3, title := "Mythology & Epics",
     description := "Journey through Indian mythology and epics", icon := "📖",
     status := "locked", points := 200 }]

/-- One iteration of the `sampleLevels.forEach` loop: `SELECT id FROM levels
WHERE number = ?`, and only when no row comes back, `INSERT INTO levels
(number, title, description, icon, status, points) VALUES (?, ?, ?, ?, ?, ?)`
with that sample's values.  The existence check makes the `UNIQUE`
constraint unviolable, so the insert cannot fail. -/
def seedStep (s : Store) (l : SampleLevel) : Store :=
  if s.levels.any (fun r => r.number == SQLVal.int l.number) then s
  else
    { s with
      levels := s.levels ++
        [{ id := s.nextLevelId, number := .int l.number, title := .text l.title,
           description := .text l.description, icon := .text l.icon,
           status := .text l.status, points := .int l.points }],
      nextLevelId := s.nextLevelId + 1 }

/-- `insertSampleData`: runs the existence-check-then-insert step for each
of the three sample levels.  The three sample `number`s are pairwise
distinct, so the sequential fold has the same net effect as the driver's
callback interleaving. -/
def insertSampleData (s : Store) : Store :=
  sampleLevels.foldl seedStep s

/-- The store of a freshly created database, before seeding. -/
def emptyStore : Store :=
  { levels := [], videos := [], nextLevelId := 1, nextVideoId := 1 }

/-! ## Order lemmas for the `ORDER BY` comparisons -/

theorem sqlLe_total (a b : SQLVal) : SQLVal.le a b || SQLVal.le b a := by
  cases a <;> cases b <;>
    simp only [SQLVal.le, Bool.or_eq_true, decide_eq_true_eq, Bool.true_or,
      Bool.or_true, Bool.or_self]
  · exact le_total ..
  · exact le_total ..

theorem sqlLe_trans (a b c : SQLVal) (hab : SQLVal.le a b) (hbc : SQLVal.le b c) :
    SQLVal.le a c := by
  cases a <;> cases b <;> cases c <;>
    simp only [SQLVal.le, decide_eq_true_eq] at hab hbc ⊢ <;>
    first
      | rfl
      | exact hab
      | exact hbc
      | exact absurd hab (by decide)
      | exact absurd hbc (by decide)
      | exact le_trans hab hbc

theorem sqlLe_antisymm (a b : SQLVal) (hab : SQLVal.le a b) (hba : SQLVal.le b a) :
    a = b := by
  cases a <;> cases b <;>
    simp only [SQLVal.le, decide_eq_true_eq] at hab hba <;>
    first
      | rfl
      | exact absurd hab (by decide)
      | exact absurd hba (by decide)
      | exact congrArg SQLVal.int (le_antisymm hab hba)
      | exact congrArg SQLVal.text (le_antisymm hab hba)

theorem joinedLe_total (a b : JoinedVideo) : joinedLe a b || joinedLe b a := by
  unfold joinedLe
  by_cases h : a.level_number = b.level_number
  · rw [if_pos h, if_pos h.symm]
    exact sqlLe_total _ _
  · have h' : ¬ b.level_number = a.level_number := fun he => h he.symm
    rw [if_neg h, if_neg h']
    exact sqlLe_total _ _

theorem joinedLe_trans (a b c : JoinedVideo) (hab : joinedLe a b) (hbc : joinedLe b c) :
    joinedLe a c := by
  unfold joinedLe at *
  by_cases h1 : a.level_number = b.level_number <;>
    by_cases h2 : b.level_number = c.level_number
  · rw [if_pos h1] at hab
    rw [if_pos h2] at hbc
    rw [if_pos (h1.trans h2)]
    exact sqlLe_trans _ _ _ hab hbc
  · rw [if_pos h1] at hab
    rw [if_neg h2] at hbc
    have hne : ¬ a.level_number = c.level_number := by rw [h1]; exact h2
    rw [if_neg hne, h1]
    exact hbc
  · rw [if_neg h1] at hab
    rw [if_pos h2] at hbc
    have hne : ¬ a.level_number = c.level_number := by rw [← h2]; exact h1
    rw [if_neg hne, ← h2]
    exact hab
  · rw [if_neg h1] at hab
    rw [if_neg h2] at hbc
    have hac := sqlLe_trans _ _ _ hab hbc
    have hne : ¬ a.level_number = c.level_number := by
      intro he
      exact h1 (sqlLe_antisymm _ _ hab (he.symm ▸ hbc))
    rw [if_neg hne]
    exact hac

/-! ## Claim theorems -/

/-- **C1.** For every level id `L`, `DELETE /api/levels/:id` removes every
video row whose `level_id` equals `L` and removes the level row with id `L`,
and a subsequent `GET /api/videos/level/L` returns the empty list. -/
theorem deleteLevel_cascades_and_list_empty (s : Store) (L : Nat) :
    (deleteLevel s L).1 = .ok "Level and associated videos deleted successfully" ∧
    (∀ v ∈ (deleteLevel s L).2.videos, v.level_id ≠ SQLVal.int L) ∧
    (∀ l ∈ (deleteLevel s L).2.levels, l.id ≠ L) ∧
    getVideosByLevel (deleteLevel s L).2 L = [] := by
  refine ⟨rfl, ?_, ?_, ?_⟩
  · intro v hv
    simp only [deleteLevel, List.mem_filter, decide_not, Bool.not_eq_eq_eq_not,
      Bool.not_true, decide_eq_false_iff_not] at hv
    exact hv.2
  · intro l hl
    simp only [deleteLevel, List.mem_filter, decide_not, Bool.not_eq_eq_eq_not,
      Bool.not_true, decide_eq_false_iff_not] at hl
    exact hl.2
  · simp only [getVideosByLevel, deleteLevel, List.filter_filter,
      List.filter_eq_nil_iff, Bool.and_eq_true, beq_iff_eq, decide_not,
      Bool.not_eq_eq_eq_not, Bool.not_true, decide_eq_false_iff_not]
    intro v _ h
    exact absurd h.1 h.2

/-- Shared helper: the upload handler rejects any falsy `videoData` with a
400 response and an unchanged store. -/
theorem postVideo_of_not_truthy (s : Store) (b : VideoBody)
    (h : b.videoData.truthy = false) :
    postVideo s b = (.clientErr 400 "No video data provided", s) := by
  simp [postVideo, h]

/-- **C2.** When the `videoData` field is absent from the request body,
`POST /api/videos` answers 400 with an error body and inserts no row. -/
theorem postVideo_absent_videoData_400 (s : Store) (b : VideoBody)
    (h : b.videoData = .undef) :
    postVideo s b = (.clientErr 400 "No video data provided", s) ∧
    (postVideo s b).1.status = 400 ∧
    (postVideo s b).2.videos = s.videos := by
  have hr := postVideo_of_not_truthy s b (by rw [h]; rfl)
  exact ⟨hr, by rw [hr]; rfl, by rw [hr]⟩

/-- Witness for C2 at a concrete body with no `videoData` field. -/
theorem postVideo_absent_videoData_400_witness :
    postVideo emptyStore
        { level_id := .int 1, title := .str "t", description := .undef,
          videoData := .undef, filename := .undef, fileSize := .undef,
          mimeType := .undef }
      = (.clientErr 400 "No video data provided", emptyStore) ∧
    (postVideo emptyStore
        { level_id := .int 1, title := .str "t", description := .undef,
          videoData := .undef, filename := .undef, fileSize := .undef,
          mimeType := .undef }).1.status = 400 ∧
    (postVideo emptyStore
        { level_id := .int 1, title := .str "t", description := .undef,
          videoData := .undef, filename := .undef, fileSize := .undef,
          mimeType := .undef }).2.videos = emptyStore.videos :=
  postVideo_absent_videoData_400 emptyStore _ rfl

/-- **C3.** For an id with no matching row, `GET /api/videos/:id` answers
404 with an explicit error body while `GET /api/levels/:id` answers 200
with a null body; the two absence behaviours differ. -/
theorem absent_id_video_404_level_200 (s : Store) (i : Nat)
    (hv : ∀ v ∈ s.videos, v.id ≠ i) (hl : ∀ l ∈ s.levels, l.id ≠ i) :
    getVideoById s i = .clientErr 404 "Video not found" ∧
    (getVideoById s i).status = 404 ∧
    getLevelById s i = .ok none ∧
    (getLevelById s i).status = 200 ∧
    (getVideoById s i).status ≠ (getLevelById s i).status := by
  have h1 : s.videos.find? (fun v => v.id == i) = none := by
    simp only [List.find?_eq_none, beq_iff_eq]
    exact hv
  have h2 : s.levels.find? (fun l => l.id == i) = none := by
    simp only [List.find?_eq_none, beq_iff_eq]
    exact hl
  have hg : getVideoById s i = .clientErr 404 "Video not found" := by
    simp [getVideoById, h1]
  have hgl : getLevelById s i = .ok none := by
    simp [getLevelById, h2]
  refine ⟨hg, by rw [hg]; rfl, hgl, by rw [hgl]; rfl, by rw [hg, hgl]; decide⟩

/-- Witness for C3: the empty store has no video and no level with id 1. -/
theorem absent_id_video_404_level_200_witness :
    getVideoById emptyStore 1 = .clientErr 404 "Video not found" ∧
    (getVideoById emptyStore 1).status = 404 ∧
    getLevelById emptyStore 1 = .ok none ∧
    (getLevelById emptyStore 1).status = 200 ∧
    (getVideoById emptyStore 1).status ≠ (getLevelById emptyStore 1).status :=
  absent_id_video_404_level_200 emptyStore 1 (by intro v hv; cases hv)
    (by intro l hl; cases hl)

/-- **C4.** For an id with no matching row, `PUT /api/levels/:id` and
`DELETE /api/videos/:id` leave the store unchanged and still answer 200
with a success message. -/
theorem absent_id_update_and_delete_succeed (s : Store) (i : Nat) (b : LevelBody)
    (hl : ∀ l ∈ s.levels, l.id ≠ i) (hv : ∀ v ∈ s.videos, v.id ≠ i) :
    putLevel s i b = (.ok "Level updated successfully", s) ∧
    (putLevel s i b).1.status = 200 ∧
    deleteVideo s i = (.ok "Video deleted successfully", s) ∧
    (deleteVideo s i).1.status = 200 := by
  have h2 : s.levels.find? (fun l => l.id == i) = none := by
    simp only [List.find?_eq_none, beq_iff_eq]
    exact hl
  have hput : putLevel s i b = (.ok "Level updated successfully", s) := by
    simp [putLevel, h2]
  have hfil : s.videos.filter (fun v => ¬ v.id = i) = s.videos := by
    rw [List.filter_eq_self]
    intro v hvm
    simpa using hv v hvm
  have hdel : deleteVideo s i = (.ok "Video deleted successfully", s) := by
    simp only [deleteVideo, hfil]
  exact ⟨hput, by rw [hput]; rfl, hdel, by rw [hdel]; rfl⟩

/-- Witness for C4: the empty store has no level and no video with id 7. -/
theorem absent_id_update_and_delete_succeed_witness :
    putLevel emptyStore 7
        { number := .int 9, title := .str "t", description := .undef,
          icon := .undef, status := .undef, points := .undef }
      = (.ok "Level updated successfully", emptyStore) ∧
    (putLevel emptyStore 7
        { number := .int 9, title := .str "t", description := .undef,
          icon := .undef, status := .undef, points := .undef }).1.status = 200 ∧
    deleteVideo emptyStore 7 = (.ok "Video deleted successfully", emptyStore) ∧
    (deleteVideo emptyStore 7).1.status = 200 :=
  absent_id_update_and_delete_succeed emptyStore 7 _
    (by intro l hl; cases hl) (by intro v hv; cases hv)

/-- Inversion of a successful create: the insert succeeded. -/
theorem postLevel_ok_inv (s s' : Store) (b : LevelBody) (id : Nat)
    (h : postLevel s b = (.ok (id, "Level created successfully"), s')) :
    insertLevelRow s b = .ok (s', id) := by
  unfold postLevel at h
  cases hi : insertLevelRow s b with
  | ok p =>
    obtain ⟨s2, i2⟩ := p
    rw [hi] at h
    simp only [Prod.mk.injEq, ApiResp.ok.injEq] at h
    obtain ⟨⟨hid, -⟩, hs⟩ := h
    rw [hid, hs]
  | error e =>
    rw [hi] at h
    simp at h

/-- Inversion of a successful level insert: the generated id is the counter
and the new row is appended with the bound body fields. -/
theorem insertLevelRow_ok_inv (s : Store) (b : LevelBody) (s' : Store) (id : Nat)
    (h : insertLevelRow s b = .ok (s', id)) :
    id = s.nextLevelId ∧
    s'.levels = s.levels ++
      [{ id := s.nextLevelId, number := b.number.toSQL, title := b.title.toSQL,
         description := b.description.toSQL, icon := b.icon.toSQL,
         status := b.status.toSQL, points := b.points.toSQL }] := by
  simp only [insertLevelRow] at h
  by_cases h1 : b.title.toSQL = SQLVal.null
  · rw [if_pos h1] at h
    cases h
  · rw [if_neg h1] at h
    by_cases h2 : b.number.toSQL ≠ SQLVal.null ∧
        s.levels.any (fun l => l.number == b.number.toSQL)
    · rw [if_pos h2] at h
      cases h
    · rw [if_neg h2] at h
      simp only [Except.ok.injEq, Prod.mk.injEq] at h
      obtain ⟨hs, hid⟩ := h
      exact ⟨hid.symm, by rw [← hs]⟩

/-- **C5.** `GET /api/levels` returns a permutation of the stored levels
sorted by `number` ascending, and after a successful `POST /api/levels` the
created level appears in the listing of the new store. -/
theorem getLevels_sorted_and_created_appears
    (t s s' : Store) (b : LevelBody) (id : Nat)
    (hpost : postLevel s b = (.ok (id, "Level created successfully"), s')) :
    (getLevels t).Perm t.levels ∧
    (getLevels t).Pairwise (fun a c => SQLVal.le a.number c.number) ∧
    (∃ l ∈ getLevels s', l.id = id ∧ l.number = b.number.toSQL ∧
      l.title = b.title.toSQL ∧ l.description = b.description.toSQL ∧
      l.icon = b.icon.toSQL ∧ l.status = b.status.toSQL ∧
      l.points = b.points.toSQL) := by
  refine ⟨List.mergeSort_perm _ _,
    List.sorted_mergeSort (fun a b c => sqlLe_trans a.number b.number c.number)
      (fun a b => sqlLe_total a.number b.number) _, ?_⟩
  obtain ⟨hid, hlv⟩ := insertLevelRow_ok_inv s b s' id (postLevel_ok_inv s s' b id hpost)
  refine ⟨{ id := s.nextLevelId, number := b.number.toSQL, title := b.title.toSQL,
            description := b.description.toSQL, icon := b.icon.toSQL,
            status := b.status.toSQL, points := b.points.toSQL },
    ?_, hid.symm, rfl, rfl, rfl, rfl, rfl, rfl⟩
  unfold getLevels
  rw [List.mem_mergeSort, hlv]
  exact List.mem_append_right _ (List.mem_singleton_self _)

/-- Witness for C5: create a level in the empty store. -/
theorem getLevels_sorted_and_created_appears_witness :
    (getLevels emptyStore).Perm emptyStore.levels ∧
    (getLevels emptyStore).Pairwise (fun a c => SQLVal.le a.number c.number) ∧
    (∃ l ∈ getLevels (postLevel emptyStore
        { number := .int 1, title := .str "Festivals", description := .undef,
          icon := .undef, status := .str "available", points := .int 100 }).2,
      l.id = 1 ∧
      l.number = (JSVal.int 1).toSQL ∧
      l.title = (JSVal.str "Festivals").toSQL ∧
      l.description = JSVal.undef.toSQL ∧
      l.icon = JSVal.undef.toSQL ∧
      l.status = (JSVal.str "available").toSQL ∧
      l.points = (JSVal.int 100).toSQL) :=
  getLevels_sorted_and_created_appears emptyStore emptyStore _
    { number := .int 1, title := .str "Festivals", description := .undef,
      icon := .undef, status := .str "available", points := .int 100 } 1 rfl

/-- Inversion of a successful upload: `videoData` was truthy, the generated
id is the counter and the new row is appended, carrying the payload. -/
theorem postVideo_ok_inv (s s' : Store) (b : VideoBody) (id : Nat)
    (h : postVideo s b = (.ok (id, "Video uploaded successfully"), s')) :
    id = s.nextVideoId ∧
    s'.videos = s.videos ++
      [{ id := s.nextVideoId, level_id := b.level_id.toSQL,
         title := b.title.toSQL, description := b.description.toSQL,
         filename := b.filename.toSQL, file_size := b.fileSize.toSQL,
         mime_type := b.mimeType.toSQL, video_data := b.videoData.toSQL }] := by
  simp only [postVideo] at h
  by_cases h1 : b.videoData.truthy
  · rw [if_neg (by simpa using h1)] at h
    by_cases h2 : b.title.toSQL = SQLVal.null
    · rw [if_pos h2] at h
      simp at h
    · rw [if_neg h2] at h
      simp only [Prod.mk.injEq, ApiResp.ok.injEq] at h
      obtain ⟨⟨hid, -⟩, hs⟩ := h
      exact ⟨hid.symm, by rw [← hs]⟩
  · rw [if_pos (by simpa using h1)] at h
    simp at h

/-- **C6.** Round-trip: a successful upload with payload `p` followed by a
fetch of the returned id yields a record whose `video_data` equals `p`
exactly.  (`hwf`: the autoincrement counter is ahead of every stored id,
which holds in every store the server can reach.) -/
theorem video_roundtrip (s s' : Store) (b : VideoBody) (id : Nat) (p : String)
    (hwf : ∀ v ∈ s.videos, v.id < s.nextVideoId)
    (hpost : postVideo s b = (.ok (id, "Video uploaded successfully"), s'))
    (hp : b.videoData = .str p) :
    ∃ v, getVideoById s' id = .ok v ∧ v.video_data = .text p := by
  obtain ⟨hid, hvids⟩ := postVideo_ok_inv s s' b id hpost
  have hnone : s.videos.find? (fun v => v.id == id) = none := by
    simp only [List.find?_eq_none, beq_iff_eq]
    intro v hv
    rw [hid]
    exact Nat.ne_of_lt (hwf v hv)
  have hfind : s'.videos.find? (fun v => v.id == id) =
      some { id := s.nextVideoId, level_id := b.level_id.toSQL,
             title := b.title.toSQL, description := b.description.toSQL,
             filename := b.filename.toSQL, file_size := b.fileSize.toSQL,
             mime_type := b.mimeType.toSQL, video_data := b.videoData.toSQL } := by
    rw [hvids, List.find?_append, hnone, Option.none_or]
    simp [List.find?, hid]
  refine ⟨{ id := s.nextVideoId, level_id := b.level_id.toSQL,
            title := b.title.toSQL, description := b.description.toSQL,
            filename := b.filename.toSQL, file_size := b.fileSize.toSQL,
            mime_type := b.mimeType.toSQL, video_data := b.videoData.toSQL },
    ?_, ?_⟩
  · unfold getVideoById
    rw [hfind]
  · show b.videoData.toSQL = SQLVal.text p
    rw [hp]
    rfl

/-- Witness for C6: upload a payload into the empty store and fetch it. -/
theorem video_roundtrip_witness :
    ∃ v, getVideoById (postVideo emptyStore
        { level_id := .int 1, title := .str "clip", description := .undef,
          videoData := .str "AAAABBBB", filename := .str "clip.mp4",
          fileSize := .int 8, mimeType := .str "video/mp4" }).2 1 = .ok v ∧
      v.video_data = .text "AAAABBBB" :=
  video_roundtrip emptyStore _
    { level_id := .int 1, title := .str "clip", description := .undef,
      videoData := .str "AAAABBBB", filename := .str "clip.mp4",
      fileSize := .int 8, mimeType := .str "video/mp4" } 1 "AAAABBBB"
    (by intro v hv; cases hv) rfl rfl

/-- A seeding step only appends; an appended row carries the sample's
number, which was absent from the table. -/
theorem seedStep_append (s : Store) (l : SampleLevel) :
    ∃ new, (seedStep s l).levels = s.levels ++ new ∧
      ∀ r ∈ new, r.number = SQLVal.int l.number ∧
        ∀ r0 ∈ s.levels, r0.number ≠ r.number := by
  unfold seedStep
  by_cases h : s.levels.any (fun r => r.number == SQLVal.int l.number)
  · rw [if_pos h]
    exact ⟨[], (List.append_nil _).symm, by intro r hr; cases hr⟩
  · rw [if_neg h]
    refine ⟨[_], rfl, ?_⟩
    intro r hr
    rw [List.mem_singleton] at hr
    subst hr
    refine ⟨rfl, ?_⟩
    intro r0 h0 he
    apply h
    rw [List.any_eq_true]
    exact ⟨r0, h0, beq_iff_eq.mpr he⟩

/-- A present number stays present through a seeding step. -/
theorem seedStep_preserves (s : Store) (l : SampleLevel) (k : SQLVal)
    (h : ∃ r ∈ s.levels, r.number = k) :
    ∃ r ∈ (seedStep s l).levels, r.number = k := by
  obtain ⟨new, hnew, -⟩ := seedStep_append s l
  obtain ⟨r, hr, hk⟩ := h
  exact ⟨r, by rw [hnew]; exact List.mem_append_left _ hr, hk⟩

/-- After a seeding step, the sample's number is present. -/
theorem seedStep_ensures (s : Store) (l : SampleLevel) :
    ∃ r ∈ (seedStep s l).levels, r.number = SQLVal.int l.number := by
  unfold seedStep
  by_cases h : s.levels.any (fun r => r.number == SQLVal.int l.number)
  · rw [if_pos h]
    obtain ⟨r, hr, he⟩ := List.any_eq_true.mp h
    exact ⟨r, hr, beq_iff_eq.mp he⟩
  · rw [if_neg h]
    exact ⟨_, List.mem_append_right _ (List.mem_singleton_self _), rfl⟩

/-- A seeding step whose number is already present changes nothing. -/
theorem seedStep_eq_self (s : Store) (l : SampleLevel)
    (h : ∃ r ∈ s.levels, r.number = SQLVal.int l.number) :
    seedStep s l = s := by
  have hb : s.levels.any (fun r => r.number == SQLVal.int l.number) = true := by
    rw [List.any_eq_true]
    obtain ⟨r, hr, he⟩ := h
    exact ⟨r, hr, beq_iff_eq.mpr he⟩
  unfold seedStep
  rw [if_pos hb]

/-- Folding seeding steps preserves a present number. -/
theorem foldl_seed_preserves (ls : List SampleLevel) :
    ∀ (s : Store) (k : SQLVal), (∃ r ∈ s.levels, r.number = k) →
      ∃ r ∈ (ls.foldl seedStep s).levels, r.number = k := by
  induction ls with
  | nil => exact fun s k h => h
  | cons a t ih =>
    intro s k h
    simp only [List.foldl_cons]
    exact ih _ k (seedStep_preserves s a k h)

/-- After folding the seeding steps, every listed sample's number is
present. -/
theorem foldl_seed_present (ls : List SampleLevel) :
    ∀ (s : Store) (l : SampleLevel), l ∈ ls →
      ∃ r ∈ (ls.foldl seedStep s).levels, r.number = SQLVal.int l.number := by
  induction ls with
  | nil =>
    intro s l hl
    cases hl
  | cons a t ih =>
    intro s l hl
    simp only [List.foldl_cons]
    rcases List.mem_cons.mp hl with rfl | hm
    · exact foldl_seed_preserves t _ _ (seedStep_ensures s l)
    · exact ih _ l hm

/-- Folding the seeding steps over a store that already has every listed
number is the identity. -/
theorem foldl_seed_eq_self (ls : List SampleLevel) :
    ∀ s : Store, (∀ l ∈ ls, ∃ r ∈ s.levels, r.number = SQLVal.int l.number) →
      ls.foldl seedStep s = s := by
  induction ls with
  | nil => exact fun s _ => rfl
  | cons a t ih =>
    intro s h
    simp only [List.foldl_cons]
    rw [seedStep_eq_self s a (h a (List.mem_cons_self a t))]
    exact ih s fun l hl => h l (List.mem_cons_of_mem a hl)

/-- Folding the seeding steps only appends rows whose numbers come from the
samples and were absent. -/
theorem foldl_seed_append (ls : List SampleLevel) :
    ∀ s : Store, ∃ new, (ls.foldl seedStep s).levels = s.levels ++ new ∧
      ∀ r ∈ new, (∃ l ∈ ls, r.number = SQLVal.int l.number) ∧
        ∀ r0 ∈ s.levels, r0.number ≠ r.number := by
  induction ls with
  | nil =>
    intro s
    exact ⟨[], (List.append_nil _).symm, by intro r hr; cases hr⟩
  | cons a t ih =>
    intro s
    obtain ⟨n1, h1, p1⟩ := seedStep_append s a
    obtain ⟨n2, h2, p2⟩ := ih (seedStep s a)
    refine ⟨n1 ++ n2, ?_, ?_⟩
    · simp only [List.foldl_cons]
      rw [h2, h1, List.append_assoc]
    · intro r hr
      rcases List.mem_append.mp hr with hr1 | hr2
      · obtain ⟨hnum, habs⟩ := p1 r hr1
        exact ⟨⟨a, List.mem_cons_self a t, hnum⟩, habs⟩
      · obtain ⟨⟨l, hl, hnum⟩, habs⟩ := p2 r hr2
        refine ⟨⟨l, List.mem_cons_of_mem a hl, hnum⟩, ?_⟩
        intro r0 h0
        exact habs r0 (by rw [h1]; exact List.mem_append_left _ h0)

/-- **C8.** Seeding is idempotent: for every starting state it only appends
rows, an appended row has one of the sample numbers 1, 2, 3 and only
appears when no stored row had that number, every sample number is present
afterwards, and running the seeding twice equals running it once. -/
theorem insertSampleData_idempotent (s : Store) :
    (∃ new, (insertSampleData s).levels = s.levels ++ new ∧
       ∀ r ∈ new,
         (r.number = SQLVal.int 1 ∨ r.number = SQLVal.int 2 ∨
          r.number = SQLVal.int 3) ∧
         ∀ r0 ∈ s.levels, r0.number ≠ r.number) ∧
    (∀ l ∈ sampleLevels, ∃ r ∈ (insertSampleData s).levels,
       r.number = SQLVal.int l.number) ∧
    insertSampleData (insertSampleData s) = insertSampleData s := by
  refine ⟨?_, ?_, ?_⟩
  · obtain ⟨new, hnew, hp⟩ := foldl_seed_append sampleLevels s
    refine ⟨new, hnew, ?_⟩
    intro r hr
    obtain ⟨⟨l, hl, hnum⟩, habs⟩ := hp r hr
    refine ⟨?_, habs⟩
    simp only [sampleLevels, List.mem_cons, List.not_mem_nil, or_false] at hl
    rcases hl with rfl | rfl | rfl
    · exact Or.inl hnum
    · exact Or.inr (Or.inl hnum)
    · exact Or.inr (Or.inr hnum)
  · exact fun l hl => foldl_seed_present sampleLevels s l hl
  · exact foldl_seed_eq_self sampleLevels _
      fun l hl => foldl_seed_present sampleLevels s l hl

/-- **C9, counterexample.** In the concrete scenario — fresh seeded store,
then `POST /api/levels` with `{number: 4, title: "Dance Forms",
points: 120}` — the subsequent listing contains **no** row with `number 4`,
`title "Dance Forms"`, `status "locked"` and `points 120`: the handler
binds the absent `status` field as SQL `NULL`, and because the `INSERT`
names the `status` column explicitly the schema default `'locked'` does
not apply. -/
theorem seeded_create_level4_status_not_locked :
    ¬ ∃ r ∈ getLevels (postLevel (insertSampleData emptyStore)
        { number := .int 4, title := .str "Dance Forms", description := .undef,
          icon := .undef, status := .undef, points := .int 120 }).2,
      r.number = SQLVal.int 4 ∧ r.title = SQLVal.text "Dance Forms" ∧
      r.status = SQLVal.text "locked" ∧ r.points = SQLVal.int 120 := by
  unfold getLevels
  simp only [List.mem_mergeSort]
  decide

/-- **C9, amended.** The scenario answers 200 with generated id 4, and the
listing then contains a row with `number 4`, `title "Dance Forms"`,
`points 120` and `status NULL` (not the schema default `'locked'`, which
the explicit column list bypasses). -/
theorem seeded_create_level4_row_with_null_status :
    (postLevel (insertSampleData emptyStore)
        { number := .int 4, title := .str "Dance Forms", description := .undef,
          icon := .undef, status := .undef, points := .int 120 }).1
      = .ok (4, "Level created successfully") ∧
    ((postLevel (insertSampleData emptyStore)
        { number := .int 4, title := .str "Dance Forms", description := .undef,
          icon := .undef, status := .undef, points := .int 120 }).1).status = 200 ∧
    ∃ r ∈ getLevels (postLevel (insertSampleData emptyStore)
        { number := .int 4, title := .str "Dance Forms", description := .undef,
          icon := .undef, status := .undef, points := .int 120 }).2,
      r.number = SQLVal.int 4 ∧ r.title = SQLVal.text "Dance Forms" ∧
      r.status = SQLVal.null ∧ r.points = SQLVal.int 120 := by
  refine ⟨by decide, by decide, ?_⟩
  unfold getLevels
  simp only [List.mem_mergeSort]
  decide

/-- **C10.** `POST /api/videos` rejects every falsy `videoData` value —
`undefined`, `null`, `0` and in particular the empty string — with 400 and
no insert. -/
theorem postVideo_falsy_videoData_400 (s : Store) (b : VideoBody)
    (h : b.videoData.truthy = false) :
    postVideo s b = (.clientErr 400 "No video data provided", s) ∧
    (postVideo s b).1.status = 400 ∧
    (postVideo s b).2.videos = s.videos := by
  have hr := postVideo_of_not_truthy s b h
  exact ⟨hr, by rw [hr]; rfl, by rw [hr]⟩

/-- Witness for C10 at the empty-string payload. -/
theorem postVideo_falsy_videoData_400_witness :
    postVideo emptyStore
        { level_id := .int 1, title := .str "t", description := .undef,
          videoData := .str "", filename := .undef, fileSize := .undef,
          mimeType := .undef }
      = (.clientErr 400 "No video data provided", emptyStore) ∧
    (postVideo emptyStore
        { level_id := .int 1, title := .str "t", description := .undef,
          videoData := .str "", filename := .undef, fileSize := .undef,
          mimeType := .undef }).1.status = 400 ∧
    (postVideo emptyStore
        { level_id := .int 1, title := .str "t", description := .undef,
          videoData := .str "", filename := .undef, fileSize := .undef,
          mimeType := .undef }).2.videos = emptyStore.videos :=
  postVideo_falsy_videoData_400 emptyStore _ rfl

/-- With unique level ids (the primary key), at most one level matches a
given `level_id` value. -/
theorem filter_level_match_len_le_one (levels : List Level) (k : SQLVal)
    (h : (levels.map Level.id).Nodup) :
    (levels.filter (fun l => k == SQLVal.int l.id)).length ≤ 1 := by
  induction levels with
  | nil => simp
  | cons a t ih =>
    simp only [List.map_cons, List.nodup_cons] at h
    obtain ⟨hna, ht⟩ := h
    by_cases hk : (k == SQLVal.int a.id) = true
    · rw [@List.filter_cons_of_pos _ (fun l => k == SQLVal.int l.id) a t hk]
      have hnil : t.filter (fun l => k == SQLVal.int l.id) = [] := by
        rw [List.filter_eq_nil_iff]
        intro l hl he
        rw [beq_iff_eq] at hk he
        apply hna
        rw [List.mem_map]
        refine ⟨l, hl, ?_⟩
        have h2 : SQLVal.int (l.id : Int) = SQLVal.int (a.id : Int) := by
          rw [← he, ← hk]
        have h3 : (l.id : Int) = (a.id : Int) := by injection h2
        exact_mod_cast h3
      rw [hnil]
      simp
    · rw [@List.filter_cons_of_neg _ (fun l => k == SQLVal.int l.id) a t hk]
      exact ih ht

/-- With unique level ids, the left-join block of one video projects back
to exactly that video. -/
theorem leftJoinRows_map_video (levels : List Level) (v : Video)
    (h : (levels.map Level.id).Nodup) :
    (leftJoinRows levels v).map JoinedVideo.video = [v] := by
  unfold leftJoinRows
  rcases hf : levels.filter (fun l => v.level_id == SQLVal.int l.id) with _ | ⟨a, t⟩
  · rw [hf]
    rfl
  · have hlen := filter_level_match_len_le_one levels v.level_id h
    rw [hf] at hlen
    simp only [List.length_cons] at hlen
    have ht : t = [] := List.eq_nil_of_length_eq_zero (by omega)
    subst ht
    rw [hf]
    rfl

/-- With unique level ids, the whole join projects back to the videos
table. -/
theorem join_map_video (levels : List Level) (h : (levels.map Level.id).Nodup) :
    ∀ vs : List Video,
      ((vs.flatMap (leftJoinRows levels)).map JoinedVideo.video) = vs := by
  intro vs
  induction vs with
  | nil => rfl
  | cons v t ih =>
    rw [List.flatMap_cons, List.map_append, leftJoinRows_map_video levels v h, ih]
    rfl

/-- **C7.** `GET /api/videos` returns one row per stored video — the full
video record, payload included — left-joined with the owning level's
`number` and `title` (`NULL` join columns for orphaned videos), ordered by
level number and then by video title.  (`hnodup`: level ids are unique, as
the primary key guarantees.) -/
theorem getVideos_joined_complete_sorted (s : Store)
    (hnodup : (s.levels.map Level.id).Nodup) :
    ((getVideos s).map JoinedVideo.video).Perm s.videos ∧
    (getVideos s).Pairwise (fun a b => joinedLe a b) ∧
    ∀ r ∈ getVideos s,
      (∃ l ∈ s.levels, r.video.level_id = SQLVal.int l.id ∧
        r.level_number = l.number ∧ r.level_title = l.title) ∨
      ((∀ l ∈ s.levels, r.video.level_id ≠ SQLVal.int l.id) ∧
        r.level_number = SQLVal.null ∧ r.level_title = SQLVal.null) := by
  refine ⟨?_, List.sorted_mergeSort joinedLe_trans joinedLe_total _, ?_⟩
  · have hperm := (List.mergeSort_perm
      (s.videos.flatMap (leftJoinRows s.levels)) joinedLe).map JoinedVideo.video
    rw [join_map_video s.levels hnodup s.videos] at hperm
    exact hperm
  · intro r hr
    rw [getVideos, List.mem_mergeSort] at hr
    obtain ⟨v, hv, hrj⟩ := List.mem_flatMap.mp hr
    unfold leftJoinRows at hrj
    rcases hf : s.levels.filter (fun l => v.level_id == SQLVal.int l.id) with _ | ⟨a, t⟩
    · rw [hf] at hrj
      rw [List.mem_singleton] at hrj
      subst hrj
      right
      refine ⟨?_, rfl, rfl⟩
      intro l hl he
      have hm : l ∈ s.levels.filter (fun l => v.level_id == SQLVal.int l.id) :=
        List.mem_filter.mpr ⟨hl, beq_iff_eq.mpr he⟩
      rw [hf] at hm
      cases hm
    · rw [hf] at hrj
      rw [List.mem_map] at hrj
      obtain ⟨l, hl, rfl⟩ := hrj
      left
      have hm : l ∈ s.levels.filter (fun l => v.level_id == SQLVal.int l.id) := by
        rw [hf]
        exact hl
      exact ⟨l, (List.mem_filter.mp hm).1,
        beq_iff_eq.mp (List.mem_filter.mp hm).2, rfl, rfl⟩

/-- Witness for C7: a store with one level, one attached video and one
orphaned video. -/
theorem getVideos_joined_complete_sorted_witness :
    ((getVideos
        { levels := [{ id := 1, number := .int 1, title := .text "A",
                       description := .null, icon := .null, status := .null,
                       points := .int 100 }],
          videos := [{ id := 1, level_id := .int 1, title := .text "a",
                       description := .null, filename := .null,
                       file_size := .null, mime_type := .null,
                       video_data := .text "P1" },
                     { id := 2, level_id := .null, title := .text "b",
                       description := .null, filename := .null,
                       file_size := .null, mime_type := .null,
                       video_data := .text "P2" }],
          nextLevelId := 2, nextVideoId := 3 }).map JoinedVideo.video).Perm
      ({ levels := [{ id := 1, number := .int 1, title := .text "A",
                      description := .null, icon := .null, status := .null,
                      points := .int 100 }],
         videos := [{ id := 1, level_id := .int 1, title := .text "a",
                      description := .null, filename := .null,
                      file_size := .null, mime_type := .null,
                      video_data := .text "P1" },
                    { id := 2, level_id := .null, title := .text "b",
                      description := .null, filename := .null,
                      file_size := .null, mime_type := .null,
                      video_data := .text "P2" }],
         nextLevelId := 2, nextVideoId := 3 } : Store).videos ∧
    (getVideos
        { levels := [{ id := 1, number := .int 1, title := .text "A",
                       description := .null, icon := .null, status := .null,
                       points := .int 100 }],
          videos := [{ id := 1, level_id := .int 1, title := .text "a",
                       description := .null, filename := .null,
                       file_size := .null, mime_type := .null,
                       video_data := .text "P1" },
                     { id := 2, level_id := .null, title := .text "b",
                       description := .null, filename := .null,
                       file_size := .null, mime_type := .null,
                       video_data := .text "P2" }],
          nextLevelId := 2, nextVideoId := 3 }).Pairwise (fun a b => joinedLe a b) ∧
    ∀ r ∈ getVideos
        { levels := [{ id := 1, number := .int 1, title := .text "A",
                       description := .null, icon := .null, status := .null,
                       points := .int 100 }],
          videos := [{ id := 1, level_id := .int 1, title := .text "a",
                       description := .null, filename := .null,
                       file_size := .null, mime_type := .null,
                       video_data := .text "P1" },
                     { id := 2, level_id := .null, title := .text "b",
                       description := .null, filename := .null,
                       file_size := .null, mime_type := .null,
                       video_data := .text "P2" }],
          nextLevelId := 2, nextVideoId := 3 },
      (∃ l ∈ ({ levels := [{ id := 1, number := .int 1, title := .text "A",
                             description := .null, icon := .null, status := .null,
                             points := .int 100 }],
                videos := [{ id := 1, level_id := .int 1, title := .text "a",
                             description := .null, filename := .null,
                             file_size := .null, mime_type := .null,
                             video_data := .text "P1" },
                           { id := 2, level_id := .null, title := .text "b",
                             description := .null, filename := .null,
                             file_size := .null, mime_type := .null,
                             video_data := .text "P2" }],
                nextLevelId := 2, nextVideoId := 3 } : Store).levels,
          r.video.level_id = SQLVal.int l.id ∧
          r.level_number = l.number ∧ r.level_title = l.title) ∨
      ((∀ l ∈ ({ levels := [{ id := 1, number := .int 1, title := .text "A",
                              description := .null, icon := .null, status := .null,
                              points := .int 100 }],
                 videos := [{ id := 1, level_id := .int 1, title := .text "a",
                              description := .null, filename := .null,
                              file_size := .null, mime_type := .null,
                              video_data := .text "P1" },
                            { id := 2, level_id := .null, title := .text "b",
                              description := .null, filename := .null,
                              file_size := .null, mime_type := .null,
                              video_data := .text "P2" }],
                 nextLevelId := 2, nextVideoId := 3 } : Store).levels,
          r.video.level_id ≠ SQLVal.int l.id) ∧
        r.level_number = SQLVal.null ∧ r.level_title = SQLVal.null) :=
  getVideos_joined_complete_sorted _ (by decide)

end CultureServer
